import Mathlib

/-!
Verification of the rustsbi-tutorial core: the ACLINT register block
(`crates/aclint/src/lib.rs`) and the board-info extraction over a
device-tree blob (`crates/rustsbi-qemu/test-kernel/src/main.rs`).

The register block is modelled by its `repr(C)` layout arithmetic and by a
state-passing embedding of the volatile accessors; panics (out-of-bounds
indexing, `unwrap`, `unreachable!`) are modelled as `Option.none`.
-/

namespace Aclint

/-! ### Layout model of the `repr(C)` register structs

Rust layout facts for the types in `crates/aclint/src/lib.rs`:
`MTIME`/`MTIMECMP` are `repr(transparent)` over `UnsafeCell<u64>`,
`MSIP`/`SETSSIP` over `UnsafeCell<u32>`; `MSWI`, `SSWI`, `SifiveClint` are
`repr(C)` structs, so their size is the sum of field sizes here (all field
alignments are satisfied without padding). -/

def sizeOfU32 : Nat := 4

def sizeOfU64 : Nat := 8

/-- `MSIP` is `repr(transparent)` over `UnsafeCell<u32>`. -/
def sizeOfMSIP : Nat := sizeOfU32

/-- `SETSSIP` is `repr(transparent)` over `UnsafeCell<u32>`. -/
def sizeOfSETSSIP : Nat := sizeOfU32

/-- `MTIMECMP` is `repr(transparent)` over `UnsafeCell<u64>`. -/
def sizeOfMTIMECMP : Nat := sizeOfU64

/-- `MTIME` is `repr(transparent)` over `UnsafeCell<u64>`. -/
def sizeOfMTIME : Nat := sizeOfU64

/-- `MSWI`: `msip: [MSIP; 4095]` followed by `_reserved: u32` (`repr(C)`). -/
def sizeOfMSWI : Nat := 4095 * sizeOfMSIP + sizeOfU32

/-- `SSWI`: `setssip: [SETSSIP; 4095]` followed by `_reserved: u32` (`repr(C)`). -/
def sizeOfSSWI : Nat := 4095 * sizeOfSETSSIP + sizeOfU32

/-- `[MTIMECMP; 4095]`. -/
def sizeOfMtimecmpArray : Nat := 4095 * sizeOfMTIMECMP

/-- `SifiveClint`: `mswi: MSWI`, then `mtimecmp: [MTIMECMP; 4095]`, then
`mtime: MTIME` (`repr(C)`, no padding: every field is 4- or 8-aligned at an
8-aligned offset). -/
def sizeOfSifiveClint : Nat := sizeOfMSWI + sizeOfMtimecmpArray + sizeOfMTIME

/-- Byte offset of the `mswi` field (first field of the `repr(C)` struct). -/
def offsetOfMswi : Nat := 0

/-- Byte offset of the `mtimecmp` field (second field). -/
def offsetOfMtimecmp : Nat := offsetOfMswi + sizeOfMSWI

/-- Byte offset of the `mtime` field (third field). -/
def offsetOfMtime : Nat := offsetOfMtimecmp + sizeOfMtimecmpArray

/-- Declaration order of the fields of `SifiveClint`, paired with offsets. -/
def sifiveClintFields : List (String × Nat) :=
  [("mswi", offsetOfMswi), ("mtimecmp", offsetOfMtimecmp), ("mtime", offsetOfMtime)]

/-! ### State model of the volatile accessors

The device state: one 32-bit IPI register per hart index below 4095, one
64-bit compare register per hart index below 4095, one shared 64-bit
counter.  Each Rust accessor indexes a 4095-element array, so a hart index
`≥ 4095` is a bounds-check panic, modelled as `none`. -/

structure ClintState where
  msip : Fin 4095 → Nat
  mtimecmp : Fin 4095 → Nat
  mtime : Nat

/-- `read_msip`: volatile-read the hart's IPI register, compare with 0. -/
def read_msip (s : ClintState) (hart_idx : Nat) : Option Bool :=
  if h : hart_idx < 4095 then some (s.msip ⟨hart_idx, h⟩ != 0) else none

/-- `set_msip`: volatile-write 1 to the hart's IPI register. -/
def set_msip (s : ClintState) (hart_idx : Nat) : Option ClintState :=
  if h : hart_idx < 4095 then
    some { s with msip := Function.update s.msip ⟨hart_idx, h⟩ 1 }
  else none

/-- `clear_msip`: volatile-write 0 to the hart's IPI register. -/
def clear_msip (s : ClintState) (hart_idx : Nat) : Option ClintState :=
  if h : hart_idx < 4095 then
    some { s with msip := Function.update s.msip ⟨hart_idx, h⟩ 0 }
  else none

/-- `read_mtimecmp`: volatile-read the hart's compare register. -/
def read_mtimecmp (s : ClintState) (hart_idx : Nat) : Option Nat :=
  if h : hart_idx < 4095 then some (s.mtimecmp ⟨hart_idx, h⟩) else none

/-- `write_mtimecmp`: volatile-write a `u64` value to the hart's compare
register (the value is reduced mod `2^64`, the width of the register). -/
def write_mtimecmp (s : ClintState) (hart_idx : Nat) (val : Nat) : Option ClintState :=
  if h : hart_idx < 4095 then
    some { s with mtimecmp := Function.update s.mtimecmp ⟨hart_idx, h⟩ (val % 2 ^ 64) }
  else none

/-- A concrete all-zero device state, used to instantiate the theorems. -/
def zeroState : ClintState := { msip := fun _ => 0, mtimecmp := fun _ => 0, mtime := 0 }

end Aclint

namespace Dtb

/-! ### Board info and the decision closure of `BoardInfo::parse`

The closure passed to `.walk(...)` in
`crates/rustsbi-qemu/test-kernel/src/main.rs` is embedded as `boardStep`.
Its panics (`reg.next().unwrap()` on an empty range list, `unreachable!()`
on a payload that is neither 4 nor 8 bytes) are modelled as `none`. -/

structure BoardInfo where
  smp : Nat
  frequency : Nat
  uart : Nat
deriving DecidableEq, Repr

/-- `dtb_walker::WalkOperation` (the variants the closure returns). -/
inductive WalkOperation where
  | stepInto
  | stepOver
  | stepOut
deriving DecidableEq, Repr

/-- A device-tree property as seen by the walk callback:
`Property::Reg` carries (start, length) ranges, `Property::General` a
name and raw byte payload; other property kinds are only matched by the
closure's catch-all arm. -/
inductive DtProp where
  | reg (ranges : List (Nat × Nat))
  | general (name : String) (value : List Nat)
  | other
deriving DecidableEq, Repr

/-- The object handed to the walk callback: a sub-node event or a property
event (`dtb_walker::DtbObj`). -/
inductive DtbObj where
  | subNode (name : String)
  | property (p : DtProp)
deriving DecidableEq, Repr

/-- The callback context: whether the current node is the root
(`ctx.is_root()`) and the current node's name (`ctx.name()`). -/
structure Ctx where
  isRoot : Bool
  name : String
deriving DecidableEq, Repr

/-- Big-endian value of a byte string (`uXX::from_be_bytes`). -/
def beNat (bytes : List Nat) : Nat := bytes.foldl (fun a b => a * 256 + b) 0

/-- `str::starts_with` / `dtb_walker::Str::starts_with`: character-wise
prefix test. -/
def strStartsWith (s p : String) : Bool := p.data.isPrefixOf s.data

/-- The decision closure of `BoardInfo::parse`, embedded from the source:
takes the accumulated `ans`, the context and the visited object; returns
the updated `ans` and the walk operation, or `none` where the Rust closure
panics. -/
def boardStep (ans : BoardInfo) (ctx : Ctx) (obj : DtbObj) :
    Option (BoardInfo × WalkOperation) :=
  match obj with
  | .subNode name =>
    if ctx.isRoot && (name == "cpus" || name == "soc") then
      some (ans, .stepInto)
    else if ctx.name == "cpus" && strStartsWith name "cpu@" then
      some ({ ans with smp := ans.smp + 1 }, .stepOver)
    else if ctx.name == "soc" && (strStartsWith name "uart" || strStartsWith name "serial") then
      some (ans, .stepInto)
    else
      some (ans, .stepOver)
  | .property (.reg ranges) =>
    if strStartsWith ctx.name "uart" || strStartsWith ctx.name "serial" then
      match ranges with
      | [] => none
      | r :: _ => some ({ ans with uart := r.1 }, .stepOut)
    else
      some (ans, .stepOut)
  | .property (.general name value) =>
    if ctx.name == "cpus" && name == "timebase-frequency" then
      match value with
      | [a, b, c, d] =>
        some ({ ans with frequency := ((a * 256 + b) * 256 + c) * 256 + d }, .stepOver)
      | [a, b, c, d, e, f, g, h] =>
        some ({ ans with
          frequency := ((((((a * 256 + b) * 256 + c) * 256 + d) * 256 + e) * 256 + f)
            * 256 + g) * 256 + h }, .stepOver)
      | _ => none
    else
      some (ans, .stepOver)
  | .property .other => some (ans, .stepOver)

/-! ### The walker, modelled from the spec

`dtb_walker`'s traversal itself is not part of this repository's sources;
it is modelled from the spec's description of the walk. -/

mutual

/-- Modelled from the spec: a node of the serialized hardware-description
tree — a name, its properties (which the flattened format places before
sub-nodes), and its sub-nodes.  The sibling list is its own inductive so
that the walker below is structurally recursive. -/
inductive DtNode where
  | node (name : String) (props : List DtProp) (children : DtNodeList)

/-- A list of sibling nodes. -/
inductive DtNodeList where
  | nil
  | cons (head : DtNode) (tail : DtNodeList)

end

/-- Build a sibling list from a `List` literal. -/
def DtNodeList.ofList : List DtNode → DtNodeList
  | [] => .nil
  | n :: ns => .cons n (DtNodeList.ofList ns)

/-- Modelled from the spec: visit the properties of the current node in
order, applying the decision closure with the current node's context; a
step-out decision stops scanning this node's remaining properties (the
`Bool` records that a step-out happened). -/
def walkProps (ans : BoardInfo) (ctx : Ctx) : List DtProp → Option (BoardInfo × Bool)
  | [] => some (ans, false)
  | p :: ps =>
    match boardStep ans ctx (.property p) with
    | none => none
    | some (ans1, .stepOut) => some (ans1, true)
    | some (ans1, _) => walkProps ans1 ctx ps

/-- Modelled from the spec: depth-first visit of a list of sibling
sub-nodes under the context `ctx` of their parent.  For each sub-node the
closure decides: step into (visit its properties, then, unless a property
stepped out, its children, then continue with the remaining siblings),
step over (skip it, continue siblings), step out (abandon the remaining
siblings of the current node). -/
def walkNodes (ans : BoardInfo) (ctx : Ctx) : DtNodeList → Option BoardInfo
  | .nil => some ans
  | .cons (DtNode.node n ps cs) rest =>
    match boardStep ans ctx (.subNode n) with
    | none => none
    | some (ans1, .stepInto) =>
      match walkProps ans1 ⟨false, n⟩ ps with
      | none => none
      | some (ans2, true) => walkNodes ans2 ctx rest
      | some (ans2, false) =>
        match walkNodes ans2 ⟨false, n⟩ cs with
        | none => none
        | some ans3 => walkNodes ans3 ctx rest
    | some (ans1, .stepOver) => walkNodes ans1 ctx rest
    | some (ans1, .stepOut) => some ans1

/-- Modelled from the spec: the header check of
`Dtb::from_raw_parts_filtered` — the cosmetic and structural error kinds
named by the spec (4-byte misalignment, outdated last-compatible-version
marker, bad magic, corrupt size fields, truncated buffer). -/
inductive HeaderError where
  | misaligned (n : Nat)
  | lastCompVersion (v : Nat)
  | badMagic
  | badTotalSize
  | truncated
deriving DecidableEq, Repr

/-- The filter closure passed to `Dtb::from_raw_parts_filtered` in the
source: `matches!(e, E::Misaligned(4) | E::LastCompVersion(_))`. -/
def headerFilter : HeaderError → Bool
  | .misaligned 4 => true
  | .lastCompVersion _ => true
  | _ => false

/-- Modelled from the spec: a hardware-description blob, abstracted to the
outcome of its header check (`none` when the header is well-formed) and
the tree it serializes. -/
structure Blob where
  headerErr : Option HeaderError
  root : DtNode

/-- A root node from a property list and a plain list of sub-nodes. -/
def DtNode.root (props : List DtProp) (children : List DtNode) : DtNode :=
  .node "" props (.ofList children)

/-- Modelled from the spec: `Dtb::from_raw_parts_filtered` succeeds when
the header check reports no error or an error accepted by the filter. -/
def fromRawPartsFiltered (b : Blob) (f : HeaderError → Bool) : Option DtNode :=
  match b.headerErr with
  | none => some b.root
  | some e => if f e then some b.root else none

/-- Context of the root node: `is_root()` holds, the root's name is empty. -/
def rootCtx : Ctx := ⟨true, ""⟩

/-- `BoardInfo::parse`: run the filtered header check (its `unwrap` panic
is `none`), then walk the tree from the root (root properties first, then
the root's sub-nodes), starting from `{ smp := 0, frequency := 0, uart := 0 }`.
The walk driver is modelled from the spec; the decisions are `boardStep`,
from the source. -/
def parse (b : Blob) : Option BoardInfo :=
  match fromRawPartsFiltered b headerFilter with
  | none => none
  | some (DtNode.node _ ps cs) =>
    match walkProps ⟨0, 0, 0⟩ rootCtx ps with
    | none => none
    | some (ans, true) => some ans
    | some (ans, false) => walkNodes ans rootCtx cs

/-! ### Concrete blobs and a body well-formedness predicate -/

/-- The spec's minimal synthetic blob: a well-formed header; root with a
"cpus" node carrying a 4-byte big-endian `timebase-frequency` of 10000000
and two `cpu@` children, and a "soc" node with one `uart@10000000` child
whose `reg` starts at `0x10000000`. -/
def c4blob : Blob :=
  ⟨none, .root []
    [ .node "cpus" [ .general "timebase-frequency" [0x00, 0x98, 0x96, 0x80] ]
        (.ofList [ .node "cpu@0" [] .nil, .node "cpu@1" [] .nil ]),
      .node "soc" []
        (.ofList [ .node "uart@10000000" [ .reg [(0x10000000, 0x100)] ] .nil ]) ]⟩

/-- A blob with two uart-prefixed sub-nodes under "soc", each with a `reg`
property: `uart@10000000` starting at `0x10000000` first, `uart@10001000`
starting at `0x10001000` second. -/
def twoUartBlob : Blob :=
  ⟨none, .root []
    [ .node "soc" []
        (.ofList [ .node "uart@10000000" [ .reg [(0x10000000, 0x100)] ] .nil,
          .node "uart@10001000" [ .reg [(0x10001000, 0x100)] ] .nil ]) ]⟩

/-- A blob with a well-formed header whose "cpus" node carries a
`timebase-frequency` property with a 3-byte payload. -/
def badFreqBlob : Blob :=
  ⟨none, .root []
    [ .node "cpus" [ .general "timebase-frequency" [1, 2, 3] ] .nil ]⟩

/-- Body well-formedness of one property: `reg` ranges are non-empty and
any `timebase-frequency` payload is 4 or 8 bytes — the conditions under
which the decision closure never panics. -/
def propWf : DtProp → Bool
  | .reg ranges => !ranges.isEmpty
  | .general name value =>
    !(name == "timebase-frequency") || (value.length == 4 || value.length == 8)
  | .other => true

mutual

/-- Body well-formedness of a node: all its properties and children. -/
def nodeWf : DtNode → Bool
  | .node _ ps cs => ps.all propWf && nodesWf cs

/-- Body well-formedness of a sibling list. -/
def nodesWf : DtNodeList → Bool
  | .nil => true
  | .cons n rest => nodeWf n && nodesWf rest

end

end Dtb

open Aclint Dtb

/-! ## Theorems for the register block -/

/-- C3: the register-block types have exactly the specified memory sizes —
`size_of(SifiveClint) = 0xc000`, `size_of(MSWI) = 0x4000`,
`size_of(SSWI) = 0x4000`, `size_of([MTIMECMP; 4095]) = 0x7ff8` — and the
fields of `SifiveClint` are laid out in the order IPI-array (`mswi`), then
compare-array (`mtimecmp`), then counter (`mtime`). -/
theorem sifiveClint_layout :
    sizeOfSifiveClint = 0xc000 ∧ sizeOfMSWI = 0x4000 ∧ sizeOfSSWI = 0x4000 ∧
    sizeOfMtimecmpArray = 0x7ff8 ∧
    sifiveClintFields = [("mswi", 0x0), ("mtimecmp", 0x4000), ("mtime", 0xbff8)] := by
  decide

/-- C6: for valid core indices `i ≠ j`, `set_msip i` makes `read_msip i`
return `true` and leaves `read_msip j` unchanged; `clear_msip i` makes
`read_msip i` return `false`; and `read_msip i` returns `true` iff core
`i`'s IPI register is non-zero. -/
theorem clint_msip_set_clear_read (s : ClintState) (i j : Nat)
    (hi : i < 4095) (hj : j < 4095) (hij : i ≠ j) :
    (set_msip s i).bind (fun t => read_msip t i) = some true ∧
    (set_msip s i).bind (fun t => read_msip t j) = read_msip s j ∧
    (clear_msip s i).bind (fun t => read_msip t i) = some false ∧
    (read_msip s i = some true ↔ s.msip ⟨i, hi⟩ ≠ 0) := by
  have hne : (⟨j, hj⟩ : Fin 4095) ≠ ⟨i, hi⟩ := by
    simp only [ne_eq, Fin.mk.injEq]
    exact fun h => hij h.symm
  refine ⟨?_, ?_, ?_, ?_⟩
  · simp [set_msip, read_msip, hi]
  · simp [set_msip, read_msip, hi, hj, Function.update_noteq hne]
  · simp [clear_msip, read_msip, hi]
  · simp [read_msip, hi]

/-- Closed instance of `clint_msip_set_clear_read` at `i = 0`, `j = 1` on
the all-zero device state. -/
theorem clint_msip_set_clear_read_witness :
    (set_msip zeroState 0).bind (fun t => read_msip t 0) = some true ∧
    (set_msip zeroState 0).bind (fun t => read_msip t 1) = read_msip zeroState 1 ∧
    (clear_msip zeroState 0).bind (fun t => read_msip t 0) = some false ∧
    (read_msip zeroState 0 = some true ↔ zeroState.msip ⟨0, by decide⟩ ≠ 0) :=
  clint_msip_set_clear_read zeroState 0 1 (by decide) (by decide) (by decide)

/-- C7: for a valid core index `i` and any 64-bit value `v`,
`write_mtimecmp i v` followed by `read_mtimecmp i` returns `v`, and the
write leaves every other core's compare register unchanged. -/
theorem clint_mtimecmp_roundtrip_frame (s : ClintState) (i k v : Nat)
    (hi : i < 4095) (hk : k < 4095) (hki : k ≠ i) (hv : v < 2 ^ 64) :
    (write_mtimecmp s i v).bind (fun t => read_mtimecmp t i) = some v ∧
    (write_mtimecmp s i v).bind (fun t => read_mtimecmp t k) = read_mtimecmp s k := by
  have hne : (⟨k, hk⟩ : Fin 4095) ≠ ⟨i, hi⟩ := by
    simp only [ne_eq, Fin.mk.injEq]
    exact hki
  have hv' : v % 2 ^ 64 = v := Nat.mod_eq_of_lt hv
  constructor
  · simp [write_mtimecmp, read_mtimecmp, hi, hv']
    omega
  · simp [write_mtimecmp, read_mtimecmp, hi, hk, Function.update_noteq hne]

/-- Closed instance of `clint_mtimecmp_roundtrip_frame` at `i = 0`,
`k = 1`, `v = 2^64 - 1` (the maximum 64-bit value) on the all-zero state. -/
theorem clint_mtimecmp_roundtrip_frame_witness :
    (write_mtimecmp zeroState 0 (2 ^ 64 - 1)).bind (fun t => read_mtimecmp t 0)
      = some (2 ^ 64 - 1) ∧
    (write_mtimecmp zeroState 0 (2 ^ 64 - 1)).bind (fun t => read_mtimecmp t 1)
      = read_mtimecmp zeroState 1 :=
  clint_mtimecmp_roundtrip_frame zeroState 0 1 (2 ^ 64 - 1)
    (by decide) (by decide) (by decide) (by norm_num)

/-- C9: each register accessor completes (returns a value) exactly for
hart indices below 4095; for an index `≥ 4095` every accessor is a
bounds-check panic (`none`), never a wrapped or saturated access to some
other register. -/
theorem clint_accessor_bounds (s : ClintState) (i v : Nat) :
    ((read_mtimecmp s i).isSome ↔ i < 4095) ∧
    ((write_mtimecmp s i v).isSome ↔ i < 4095) ∧
    ((read_msip s i).isSome ↔ i < 4095) ∧
    ((set_msip s i).isSome ↔ i < 4095) ∧
    ((clear_msip s i).isSome ↔ i < 4095) ∧
    (4095 ≤ i →
      read_mtimecmp s i = none ∧ write_mtimecmp s i v = none ∧
      read_msip s i = none ∧ set_msip s i = none ∧ clear_msip s i = none) := by
  by_cases h : i < 4095
  · simp only [read_mtimecmp, write_mtimecmp, read_msip, set_msip, clear_msip]
    simp [h]
  · simp only [read_mtimecmp, write_mtimecmp, read_msip, set_msip, clear_msip]
    simp [h]

/-- Closed instance of `clint_accessor_bounds`: index 0 is accepted by
`read_mtimecmp`, index 4095 is rejected by all five accessors. -/
theorem clint_accessor_bounds_witness :
    (read_mtimecmp zeroState 0).isSome ∧
    (read_mtimecmp zeroState 4095 = none ∧ write_mtimecmp zeroState 4095 0 = none ∧
      read_msip zeroState 4095 = none ∧ set_msip zeroState 4095 = none ∧
      clear_msip zeroState 4095 = none) :=
  ⟨(clint_accessor_bounds zeroState 0 0).1.mpr (by decide),
   (clint_accessor_bounds zeroState 4095 0).2.2.2.2.2 (by decide)⟩

/-! ## Theorems for board-info extraction -/

/-- C4: on the spec's minimal synthetic blob, `BoardInfo::parse` returns
`smp = 2`, `frequency = 10000000`, `uart = 0x10000000`. -/
theorem parse_minimal_blob : parse c4blob = some ⟨2, 10000000, 0x10000000⟩ := by
  decide

/-- C1 counterexample: on a blob with two uart sub-nodes under "soc", each
with a `reg` property, extraction completes but the resulting `uart` field
is the start address of the second matching node (`0x10001000`), not of
the node encountered first (`0x10000000`): each matching node's `reg`
overwrites the field and step-out does not skip the later siblings. -/
theorem parse_twoUart_counterexample :
    (parse twoUartBlob).map BoardInfo.uart = some 0x10001000 ∧
    (parse twoUartBlob).map BoardInfo.uart ≠ some 0x10000000 := by
  decide

/-- C1 amended: with two uart-prefixed sub-nodes under "soc", each with a
`reg` property, extraction completes without error and `uart` is the start
address of the first range of the matching node encountered last. -/
theorem parse_twoUart_last_wins (n1 n2 : String) (a1 l1 a2 l2 : Nat)
    (h1 : strStartsWith n1 "uart" = true) (h2 : strStartsWith n2 "uart" = true) :
    parse ⟨none, .root []
      [ .node "soc" []
          (.ofList [ .node n1 [ .reg [(a1, l1)] ] .nil,
            .node n2 [ .reg [(a2, l2)] ] .nil ]) ]⟩ = some ⟨0, 0, a2⟩ := by
  simp [parse, fromRawPartsFiltered, DtNode.root, DtNodeList.ofList, walkProps, walkNodes,
    boardStep, rootCtx, h1, h2]

/-- Closed instance of `parse_twoUart_last_wins` on `twoUartBlob`. -/
theorem parse_twoUart_last_wins_witness :
    parse twoUartBlob = some ⟨0, 0, 0x10001000⟩ :=
  parse_twoUart_last_wins "uart@10000000" "uart@10001000" 0x10000000 0x100 0x10001000 0x100
    (by decide) (by decide)

/-- C2 counterexample: a `reg` property on the "cpus" node (whose name
starts with neither "uart" nor "serial") yields the decision step OUT, not
step over. -/
theorem boardStep_reg_counterexample :
    boardStep ⟨0, 0, 0⟩ ⟨false, "cpus"⟩ (.property (.reg [(1, 1)]))
      = some (⟨0, 0, 0⟩, .stepOut) ∧
    (WalkOperation.stepOut ≠ WalkOperation.stepOver) := by
  decide

/-- C2 amended: for every `reg` property on a node whose name starts with
neither "uart" nor "serial", the decision is step out, with no field
recorded — the closure returns step-out for every `reg` property; only the
recording of the address is restricted to uart/serial nodes. -/
theorem boardStep_reg_stepOut (ans : BoardInfo) (ctx : Ctx) (ranges : List (Nat × Nat))
    (h1 : strStartsWith ctx.name "uart" = false)
    (h2 : strStartsWith ctx.name "serial" = false) :
    boardStep ans ctx (.property (.reg ranges)) = some (ans, .stepOut) := by
  simp [boardStep, h1, h2]

/-- Closed instance of `boardStep_reg_stepOut` on the "cpus" context. -/
theorem boardStep_reg_stepOut_witness :
    boardStep ⟨0, 0, 0⟩ ⟨false, "cpus"⟩ (.property (.reg []))
      = some (⟨0, 0, 0⟩, .stepOut) :=
  boardStep_reg_stepOut ⟨0, 0, 0⟩ ⟨false, "cpus"⟩ [] (by decide) (by decide)

/-- C5: a `timebase-frequency` general property on the "cpus" node with a
4-byte or 8-byte payload is decoded as the big-endian unsigned integer of
the payload (4 bytes decoded 32-bit and widened, 8 bytes decoded 64-bit —
both equal to `beNat`), stored as the frequency, and the walk continues
with step over. -/
theorem boardStep_timebase_decode (ans : BoardInfo) (ctx : Ctx) (value : List Nat)
    (hctx : ctx.name = "cpus") (hlen : value.length = 4 ∨ value.length = 8) :
    boardStep ans ctx (.property (.general "timebase-frequency" value))
      = some ({ ans with frequency := beNat value }, .stepOver) := by
  rcases value with _ | ⟨a, _ | ⟨b, _ | ⟨c, _ | ⟨d, _ | ⟨e, _ | ⟨f, _ | ⟨g, _ | ⟨x, _ | ⟨y, t⟩⟩⟩⟩⟩⟩⟩⟩⟩
  · simp at hlen
  · simp at hlen
  · simp at hlen
  · simp at hlen
  · simp [boardStep, hctx, beNat]
  · simp at hlen
  · simp at hlen
  · simp at hlen
  · simp [boardStep, hctx, beNat]
  · simp at hlen

/-- Closed instance of `boardStep_timebase_decode` on a 4-byte payload. -/
theorem boardStep_timebase_decode_witness :
    boardStep ⟨0, 0, 0⟩ ⟨false, "cpus"⟩ (.property (.general "timebase-frequency" [0, 0, 0, 1]))
      = some (⟨0, beNat [0, 0, 0, 1], 0⟩, .stepOver) :=
  boardStep_timebase_decode ⟨0, 0, 0⟩ ⟨false, "cpus"⟩ [0, 0, 0, 1]
    (by decide) (Or.inl (by decide))

/-- C10: on the "cpus" node, the decode of a `timebase-frequency` general
property panics (`unreachable!`, modelled `none`) exactly when the payload
length is neither 4 nor 8; on a blob containing such a property the whole
extraction aborts. -/
theorem parse_timebase_bad_length (ans : BoardInfo) (ctx : Ctx) (value : List Nat)
    (hctx : ctx.name = "cpus") :
    (boardStep ans ctx (.property (.general "timebase-frequency" value)) = none ↔
      (value.length ≠ 4 ∧ value.length ≠ 8)) ∧
    parse badFreqBlob = none := by
  refine ⟨?_, by decide⟩
  rcases value with _ | ⟨a, _ | ⟨b, _ | ⟨c, _ | ⟨d, _ | ⟨e, _ | ⟨f, _ | ⟨g, _ | ⟨x, _ | ⟨y, t⟩⟩⟩⟩⟩⟩⟩⟩⟩ <;>
    simp [boardStep, hctx]

/-- Closed instance of `parse_timebase_bad_length` on a 3-byte payload. -/
theorem parse_timebase_bad_length_witness :
    (boardStep ⟨0, 0, 0⟩ ⟨false, "cpus"⟩ (.property (.general "timebase-frequency" [1, 2, 3]))
        = none ↔
      (([1, 2, 3] : List Nat).length ≠ 4 ∧ ([1, 2, 3] : List Nat).length ≠ 8)) ∧
    parse badFreqBlob = none :=
  parse_timebase_bad_length ⟨0, 0, 0⟩ ⟨false, "cpus"⟩ [1, 2, 3] (by decide)

/-! ## Header handling (C8): helpers and theorems -/

/-- The decision closure never panics on a sub-node event. -/
theorem boardStep_subNode_isSome (ans : BoardInfo) (ctx : Ctx) (n : String) :
    (boardStep ans ctx (.subNode n)).isSome = true := by
  simp only [boardStep]
  repeat' split
  all_goals rfl

/-- The decision closure never panics on a body-well-formed property. -/
theorem boardStep_prop_isSome (ans : BoardInfo) (ctx : Ctx) (p : DtProp)
    (h : propWf p = true) : (boardStep ans ctx (.property p)).isSome = true := by
  cases p with
  | reg ranges =>
    cases ranges with
    | nil => simp [propWf] at h
    | cons r rs =>
      simp only [boardStep]
      split
      all_goals rfl
  | general name value =>
    simp only [propWf, Bool.or_eq_true, Bool.not_eq_eq_eq_not, Bool.not_true] at h
    simp only [boardStep]
    split
    · rename_i hc
      simp only [Bool.and_eq_true, beq_iff_eq] at hc
      rcases h with hn | hlen
      · rw [hc.2] at hn
        simp at hn
      · have hlen4or8 : value.length = 4 ∨ value.length = 8 := by
          rcases hlen with h4 | h8
          · exact Or.inl (by simpa using h4)
          · exact Or.inr (by simpa using h8)
        rcases value with _ | ⟨a, _ | ⟨b, _ | ⟨c, _ | ⟨d, _ | ⟨e, _ | ⟨f, _ | ⟨g, _ | ⟨x, _ | ⟨y, t⟩⟩⟩⟩⟩⟩⟩⟩⟩ <;>
          simp at hlen4or8 <;> rfl
    · rfl
  | other => rfl

/-- On a list of body-well-formed properties, the property walk completes. -/
theorem walkProps_isSome (ctx : Ctx) (ps : List DtProp) :
    ∀ ans : BoardInfo, ps.all propWf = true → (walkProps ans ctx ps).isSome = true := by
  induction ps with
  | nil =>
    intro ans _
    rfl
  | cons p ps ih =>
    intro ans h
    simp only [List.all_cons, Bool.and_eq_true] at h
    have hb := boardStep_prop_isSome ans ctx p h.1
    rw [walkProps]
    cases hsb : boardStep ans ctx (.property p) with
    | none =>
      rw [hsb] at hb
      simp at hb
    | some pr =>
      obtain ⟨ans1, op⟩ := pr
      cases op
      · exact ih ans1 h.2
      · exact ih ans1 h.2
      · rfl

/-- On a body-well-formed sibling list, the node walk completes. -/
theorem walkNodes_isSome :
    ∀ (ns : DtNodeList) (ans : BoardInfo) (ctx : Ctx),
      nodesWf ns = true → (walkNodes ans ctx ns).isSome = true
  | .nil, _, _, _ => rfl
  | .cons (DtNode.node n ps cs) rest, ans, ctx, h => by
    simp only [nodesWf, nodeWf, Bool.and_eq_true] at h
    obtain ⟨⟨hps, hcs⟩, hrest⟩ := h
    rw [walkNodes]
    have hsn := boardStep_subNode_isSome ans ctx n
    cases hb : boardStep ans ctx (.subNode n) with
    | none =>
      rw [hb] at hsn
      simp at hsn
    | some pr =>
      obtain ⟨ans1, op⟩ := pr
      cases op with
      | stepInto =>
        dsimp only
        have hwp := walkProps_isSome ⟨false, n⟩ ps ans1 hps
        cases hp : walkProps ans1 ⟨false, n⟩ ps with
        | none =>
          rw [hp] at hwp
          simp at hwp
        | some pr2 =>
          obtain ⟨ans2, b⟩ := pr2
          cases b with
          | true => exact walkNodes_isSome rest ans2 ctx hrest
          | false =>
            dsimp only
            have hwn := walkNodes_isSome cs ans2 ⟨false, n⟩ hcs
            cases hn : walkNodes ans2 ⟨false, n⟩ cs with
            | none =>
              rw [hn] at hwn
              simp at hwn
            | some ans3 => exact walkNodes_isSome rest ans3 ctx hrest
      | stepOver => exact walkNodes_isSome rest ans1 ctx hrest
      | stepOut => rfl

/-- On a clean header and a body-well-formed tree, extraction completes. -/
theorem parse_total (root : DtNode) (h : nodeWf root = true) :
    (parse ⟨none, root⟩).isSome = true := by
  obtain ⟨n, ps, cs⟩ := root
  simp only [nodeWf, Bool.and_eq_true] at h
  obtain ⟨hps, hcs⟩ := h
  have hwp := walkProps_isSome rootCtx ps ⟨0, 0, 0⟩ hps
  simp only [parse, fromRawPartsFiltered]
  cases hp : walkProps ⟨0, 0, 0⟩ rootCtx ps with
  | none =>
    rw [hp] at hwp
    simp at hwp
  | some pr =>
    obtain ⟨ans, b⟩ := pr
    cases b with
    | true => rfl
    | false => exact walkNodes_isSome cs ans rootCtx hcs

/-- C8 counterexample: a blob whose header check reports no error at all
can still abort extraction (here through the `unreachable!` decode panic
on a 3-byte `timebase-frequency` payload), so "aborts only if the header
check reports a non-tolerated error" fails. -/
theorem parse_header_counterexample :
    badFreqBlob.headerErr = none ∧ parse badFreqBlob = none := by
  decide

/-- C8 amended: a header error rejected by the filter aborts extraction
(no default `BoardInfo` is returned); a tolerated error (`Misaligned(4)`
or `LastCompVersion(_)`) has no observable effect on the output; and on a
body-well-formed tree the extraction aborts exactly when the header check
reports a non-tolerated error. -/
theorem parse_header_gate (root : DtNode) (e : HeaderError) :
    (headerFilter e = false → parse ⟨some e, root⟩ = none) ∧
    (headerFilter e = true → parse ⟨some e, root⟩ = parse ⟨none, root⟩) ∧
    (nodeWf root = true → (parse ⟨some e, root⟩ = none ↔ headerFilter e = false)) := by
  have hclean : ∀ hf : headerFilter e = true, parse ⟨some e, root⟩ = parse ⟨none, root⟩ := by
    intro hf
    obtain ⟨n, ps, cs⟩ := root
    simp [parse, fromRawPartsFiltered, hf]
  have habort : ∀ hf : headerFilter e = false, parse ⟨some e, root⟩ = none := by
    intro hf
    obtain ⟨n, ps, cs⟩ := root
    simp [parse, fromRawPartsFiltered, hf]
  refine ⟨habort, hclean, ?_⟩
  intro hwf
  by_cases hf : headerFilter e = true
  · rw [hclean hf, hf]
    have ht := parse_total root hwf
    constructor
    · intro hn
      rw [hn] at ht
      simp at ht
    · intro hfalse
      simp at hfalse
  · have hf' : headerFilter e = false := by
      simpa using hf
    rw [habort hf', hf']
    simp

/-- Closed instance of `parse_header_gate`: a bad-magic header aborts, a
tolerated 4-byte misalignment leaves the output as with a clean header. -/
theorem parse_header_gate_witness :
    parse ⟨some .badMagic, c4blob.root⟩ = none ∧
    parse ⟨some (.misaligned 4), c4blob.root⟩ = parse ⟨none, c4blob.root⟩ ∧
    (parse ⟨some .badMagic, c4blob.root⟩ = none ↔ headerFilter .badMagic = false) :=
  ⟨(parse_header_gate c4blob.root .badMagic).1 (by decide),
   (parse_header_gate c4blob.root (.misaligned 4)).2.1 (by decide),
   (parse_header_gate c4blob.root .badMagic).2.2 (by decide)⟩
